import Mathlib

/-!
Shallow embedding of the device-session registry and command-relay hub
implemented in `src/server/index.js`.

The server keeps several JavaScript `Map`s keyed by device id
(`connectedDevices`, `deviceHistory`, `deviceScreenshots`, `deviceClipboard`,
`deviceNotifications`, `deviceApps`, `devicePermissions`, `deviceWifi`).
We model each `Map` as an insertion-ordered association list with the usual
first-match lookup, `set` replacing the first binding in place, and the
server's "find the device owning this connection" loops as first-match scans
over the list.

Dates are modelled as natural-number timestamps passed in explicitly
(`now`).  WebSocket connection handles are modelled as natural-number ids;
the set of open connections is carried in the state so that
`ws.readyState === WebSocket.OPEN` checks and connection closes can be
expressed.  JavaScript string truthiness (`x || default`, `if (x)`) is
modelled by `strTruthy`, which maps the empty string (and absence) to
`none`.
-/

namespace RemHub

/-- `Map.get`, first-match lookup in an insertion-ordered association list. -/
def mapGet {β : Type} (k : String) : List (String × β) → Option β
  | [] => none
  | (k', v) :: rest => if k = k' then some v else mapGet k rest

/-- `Map.set`: replace the first binding of `k` in place, else append. -/
def mapSet {β : Type} (k : String) (v : β) : List (String × β) → List (String × β)
  | [] => [(k, v)]
  | (k', v') :: rest => if k = k' then (k, v) :: rest else (k', v') :: mapSet k v rest

/-- Mutate the value bound to `k` when present (`if (m.has(k)) ...` pattern). -/
def mapUpdate {β : Type} (k : String) (f : β → β) : List (String × β) → List (String × β)
  | [] => []
  | (k', v) :: rest => if k = k' then (k', f v) :: rest else (k', v) :: mapUpdate k f rest

/-- JavaScript truthiness of an optional string: `undefined`, `null` and
`""` are falsy. -/
def strTruthy : Option String → Option String
  | none => none
  | some s => if s = "" then none else some s

/-- Static device identity sent in a `register` message (`message.data`). -/
structure DeviceInfo where
  deviceName : String
  brand : String
  model : String
  platform : String
  systemVersion : String
deriving DecidableEq, Repr

/-- Shape of the `sms` field of a live session. -/
structure SmsData where
  messages : List String
  error : Option String
deriving DecidableEq, Repr

/-- An entry of `connectedDevices`: the live session bound to one
connection, as built by the `register` branch of `handleDeviceMessage`. -/
structure LiveSession where
  wsId : Nat
  info : DeviceInfo
  id : String
  lastSeen : Nat
  isOnline : Bool
  location : Option String
  contacts : List String
  files : List String
  sms : SmsData
  callLog : List String
  currentPath : String
  latestScreenshot : Option Nat
  microphoneData : Option String
deriving DecidableEq, Repr

/-- An entry of `deviceHistory`.  `lastSeen` and `isOnline` are `Option`
because the object written by `register` carries neither key; the close
handler adds both. -/
structure DeviceHistory where
  info : DeviceInfo
  id : String
  firstSeen : Nat
  totalConnections : Nat
  lastSeen : Option Nat
  isOnline : Option Bool
deriving DecidableEq, Repr

/-- An entry of `deviceScreenshots`.  The success writer stores
`{data, timestamp, format}`, the failure writer `{error, timestamp}`;
absent keys are `none`. -/
structure ScreenshotEntry where
  imgData : Option String
  format : Option String
  errMsg : Option String
  timestamp : Nat
deriving DecidableEq, Repr

/-- An entry of a per-device clipboard history list. -/
structure ClipEntry where
  content : String
  timestamp : Nat
deriving DecidableEq, Repr

/-- An entry of a per-device notifications history list. -/
structure NotifEntry where
  payload : String
  receivedAt : Nat
deriving DecidableEq, Repr

/-- The `deviceApps` single-slot cache value. -/
structure AppsEntry where
  apps : List String
  lastUpdated : Nat
deriving DecidableEq, Repr

/-- The `devicePermissions` single-slot cache value. -/
structure PermsEntry where
  permissions : List String
  lastUpdated : Nat
deriving DecidableEq, Repr

/-- The `deviceWifi` single-slot cache value. -/
structure WifiEntry where
  networks : List String
  currentNetwork : Option String
  lastUpdated : Nat
deriving DecidableEq, Repr

/-- The hub's mutable state: the top-level `Map`s of `src/server/index.js`
plus the set of open connection handles. -/
structure HubState where
  connectedDevices : List (String × LiveSession)
  deviceHistory : List (String × DeviceHistory)
  deviceScreenshots : List (String × ScreenshotEntry)
  deviceClipboard : List (String × List ClipEntry)
  deviceNotifications : List (String × List NotifEntry)
  deviceApps : List (String × AppsEntry)
  devicePermissions : List (String × PermsEntry)
  deviceWifi : List (String × WifiEntry)
  openConns : List Nat
deriving DecidableEq, Repr

/-- The empty hub state at process start. -/
def initState : HubState :=
  { connectedDevices := [], deviceHistory := [], deviceScreenshots := [],
    deviceClipboard := [], deviceNotifications := [], deviceApps := [],
    devicePermissions := [], deviceWifi := [], openConns := [] }

/-- A new WebSocket connection is accepted. -/
def acceptConn (w : Nat) (s : HubState) : HubState :=
  { s with openConns := w :: s.openConns }

/-- Inbound device messages, one constructor per `message.type` handled by
`handleDeviceMessage`; `unknown` models any other `type` string. -/
inductive DeviceMsg where
  | register (deviceId : Option String) (info : DeviceInfo)
  | locationResponse (data : String)
  | contactsResponse (data : List String)
  | filesResponse (data : List String)
  | directoryResponse (files : List String) (currentPath : Option String)
  | smsResponse (data : SmsData)
  | callLogResponse (data : List String)
  | microphoneResponse (data : String)
  | clipboardResponse (content : String)
  | notificationsResponse (notifs : Option (List String))
  | appsResponse (apps : Option (List String))
  | permissionsResponse (perms : Option (List String))
  | wifiResponse (networks : Option (List String)) (currentNetwork : Option String)
  | screenshotResponse (imageData : Option String) (err : Option String) (fmt : Option String)
  | fileDownloadResponse
  | ping
  | unknown (kind : String)
deriving DecidableEq, Repr

/-- Outbound hub-to-device instruction messages (`ws.send` payloads). -/
inductive OutMsg where
  | pong
  | requestLocation
  | requestContacts
  | requestFiles
  | browseDirectory (path : String)
  | requestSms
  | requestCallLog
  | downloadFile (filePath : String)
  | takeScreenshot (quality : String)
  | startMicrophone (quality : String)
  | stopMicrophone
  | requestClipboard
  | requestNotifications
  | requestApps
  | requestPermissions
  | requestWifi
  | uploadFile (fileName : String) (fileData : String) (targetPath : String) (mimeType : String)
  | shareFile (filePath : String)
deriving DecidableEq, Repr

/-- First live session bound to connection `w`, as found by the server's
`for (const [deviceId, device] of connectedDevices.entries())` scans. -/
def findByWs (w : Nat) : List (String × LiveSession) → Option (String × LiveSession)
  | [] => none
  | (k, d) :: rest => if d.wsId = w then some (k, d) else findByWs w rest

/-- Mutate the first live session bound to connection `w` (scan + `break`). -/
def updateByWs (w : Nat) (f : LiveSession → LiveSession) :
    List (String × LiveSession) → List (String × LiveSession)
  | [] => []
  | (k, d) :: rest => if d.wsId = w then (k, f d) :: rest else (k, d) :: updateByWs w f rest

/-- `updateDeviceData(ws, field, data)`: set a session field on the first
session bound to `w`, then refresh its `lastSeen`. -/
def updateDeviceData (now w : Nat) (f : LiveSession → LiveSession)
    (m : List (String × LiveSession)) : List (String × LiveSession) :=
  updateByWs w (fun d => { f d with lastSeen := now }) m

/-- The live session created by the `register` branch. -/
def freshSession (w now : Nat) (deviceId : String) (info : DeviceInfo) : LiveSession :=
  { wsId := w, info := info, id := deviceId, lastSeen := now, isOnline := true,
    location := none, contacts := [], files := [], sms := { messages := [], error := none },
    callLog := [], currentPath := "/storage/emulated/0",
    latestScreenshot := none, microphoneData := none }

/-- `handleDeviceMessage(ws, message)`: dispatch on `message.type`.
Returns the new state and the list of `(connection, payload)` sends the
handler performed. -/
def handleDeviceMessage (now w : Nat) (msg : DeviceMsg) (s : HubState) :
    HubState × List (Nat × OutMsg) :=
  match msg with
  | .register did info =>
      let deviceId := (strTruthy did).getD (info.deviceName ++ "-" ++ toString now)
      let prev := mapGet deviceId s.deviceHistory
      let histEntry : DeviceHistory :=
        { info := info, id := deviceId,
          firstSeen := (prev.map (·.firstSeen)).getD now,
          totalConnections := (prev.map (·.totalConnections)).getD 0 + 1,
          lastSeen := none, isOnline := none }
      ({ s with
          deviceHistory := mapSet deviceId histEntry s.deviceHistory,
          connectedDevices :=
            mapSet deviceId (freshSession w now deviceId info) s.connectedDevices }, [])
  | .locationResponse d =>
      let cd := updateDeviceData now w (fun dev => { dev with location := some d })
        s.connectedDevices
      ({ s with connectedDevices := cd }, [])
  | .contactsResponse d =>
      let cd := updateDeviceData now w (fun dev => { dev with contacts := d })
        s.connectedDevices
      ({ s with connectedDevices := cd }, [])
  | .filesResponse d =>
      let cd := updateDeviceData now w (fun dev => { dev with files := d })
        s.connectedDevices
      ({ s with connectedDevices := cd }, [])
  | .directoryResponse files cp =>
      let m1 := updateDeviceData now w (fun dev => { dev with files := files })
        s.connectedDevices
      let m2 := match strTruthy cp with
        | some p => updateDeviceData now w (fun dev => { dev with currentPath := p }) m1
        | none => m1
      ({ s with connectedDevices := m2 }, [])
  | .smsResponse d =>
      let cd := updateDeviceData now w (fun dev => { dev with sms := d })
        s.connectedDevices
      ({ s with connectedDevices := cd }, [])
  | .callLogResponse d =>
      let cd := updateDeviceData now w (fun dev => { dev with callLog := d })
        s.connectedDevices
      ({ s with connectedDevices := cd }, [])
  | .microphoneResponse d =>
      let cd := updateByWs w (fun dev => { dev with microphoneData := some d })
        s.connectedDevices
      ({ s with connectedDevices := cd }, [])
  | .clipboardResponse content =>
      (match findByWs w s.connectedDevices with
       | none => (s, [])
       | some (deviceId, _) =>
          let hist := (mapGet deviceId s.deviceClipboard).getD []
          let h1 := { content := content, timestamp := now } :: hist
          let h2 := if h1.length > 50 then h1.take 50 else h1
          ({ s with deviceClipboard := mapSet deviceId h2 s.deviceClipboard }, []))
  | .notificationsResponse notifs =>
      (match findByWs w s.connectedDevices with
       | none => (s, [])
       | some (deviceId, _) =>
          let cur := (mapGet deviceId s.deviceNotifications).getD []
          match notifs with
          | some ns =>
              let n1 := ns.map (fun n => { payload := n, receivedAt := now }) ++ cur
              let n2 := if n1.length > 100 then n1.take 100 else n1
              ({ s with deviceNotifications := mapSet deviceId n2 s.deviceNotifications }, [])
          | none =>
              ({ s with deviceNotifications := mapSet deviceId cur s.deviceNotifications }, []))
  | .appsResponse apps =>
      (match findByWs w s.connectedDevices with
       | none => (s, [])
       | some (deviceId, _) =>
          let entry : AppsEntry := { apps := apps.getD [], lastUpdated := now }
          ({ s with deviceApps := mapSet deviceId entry s.deviceApps }, []))
  | .permissionsResponse perms =>
      (match findByWs w s.connectedDevices with
       | none => (s, [])
       | some (deviceId, _) =>
          let entry : PermsEntry := { permissions := perms.getD [], lastUpdated := now }
          ({ s with devicePermissions := mapSet deviceId entry s.devicePermissions }, []))
  | .wifiResponse networks cn =>
      (match findByWs w s.connectedDevices with
       | none => (s, [])
       | some (deviceId, _) =>
          let entry : WifiEntry :=
            { networks := networks.getD [], currentNetwork := strTruthy cn,
              lastUpdated := now }
          ({ s with deviceWifi := mapSet deviceId entry s.deviceWifi }, []))
  | .screenshotResponse imageData err fmt =>
      (match findByWs w s.connectedDevices with
       | none => (s, [])
       | some (deviceId, _) =>
          match strTruthy imageData with
          | some img =>
              let entry : ScreenshotEntry :=
                { imgData := some img, format := some ((strTruthy fmt).getD "png"),
                  errMsg := none, timestamp := now }
              let cd := updateByWs w (fun dev => { dev with latestScreenshot := some now })
                s.connectedDevices
              ({ s with
                  deviceScreenshots := mapSet deviceId entry s.deviceScreenshots,
                  connectedDevices := cd }, [])
          | none =>
              match strTruthy err with
              | some e =>
                  let entry : ScreenshotEntry :=
                    { imgData := none, format := none, errMsg := some e, timestamp := now }
                  ({ s with deviceScreenshots :=
                      mapSet deviceId entry s.deviceScreenshots }, [])
              | none => (s, []))
  | .fileDownloadResponse => (s, [])
  | .ping =>
      (s, if s.openConns.contains w then [(w, OutMsg.pong)] else [])
  | .unknown _ => (s, [])

/-- The `ws.on('message')` handler: `JSON.parse` inside try/catch; `none`
models an undecodable frame, which is logged and discarded. -/
def handleRawMessage (now w : Nat) (parsed : Option DeviceMsg) (s : HubState) :
    HubState × List (Nat × OutMsg) :=
  match parsed with
  | none => (s, [])
  | some m => handleDeviceMessage now w m s

/-- The close handler's mutation of the found live session:
`device.isOnline = false; device.lastSeen = new Date()`. -/
def sessionOffline (now : Nat) (d : LiveSession) : LiveSession :=
  { d with isOnline := false, lastSeen := now }

/-- The close handler's mutation of the history entry:
`historyDevice.lastSeen = new Date(); historyDevice.isOnline = false`. -/
def historyOffline (now : Nat) (h : DeviceHistory) : DeviceHistory :=
  { h with lastSeen := some now, isOnline := some false }

/-- The body of the `ws.on('close')` handler: scan `connectedDevices` for
the first session bound to `w`; mark its history entry (when present) and
the session itself offline, stamping `lastSeen`; `break`. -/
def closeScan (now w : Nat) :
    List (String × LiveSession) → List (String × DeviceHistory) →
    List (String × LiveSession) × List (String × DeviceHistory)
  | [], hist => ([], hist)
  | (k, d) :: rest, hist =>
      if d.wsId = w then
        ((k, sessionOffline now d) :: rest, mapUpdate k (historyOffline now) hist)
      else
        let (rest', hist') := closeScan now w rest hist
        ((k, d) :: rest', hist')

/-- Connection-close transition: run the close handler body and release
the transport handle. -/
def handleClose (now w : Nat) (s : HubState) : HubState :=
  let p := closeScan now w s.connectedDevices s.deviceHistory
  { s with connectedDevices := p.1, deviceHistory := p.2,
           openConns := s.openConns.erase w }

/-- HTTP status of a relay endpoint, mirroring `res.status(...).json(...)`. -/
inductive ApiStatus where
  | ok (message : String)
  | notFound (error : String)
  | badRequest (error : String)
deriving DecidableEq, Repr

/-- Result of one relay endpoint call: the HTTP outcome, the
`(connection, payload)` sends it performed, and the state it leaves. -/
structure RelayOutcome where
  status : ApiStatus
  sends : List (Nat × OutMsg)
  state : HubState
deriving DecidableEq, Repr

/-- `POST /api/devices/:deviceId/request-location` — no online check. -/
def postRequestLocation (deviceId : String) (s : HubState) : RelayOutcome :=
  match mapGet deviceId s.connectedDevices with
  | none => ⟨.notFound "Device not found", [], s⟩
  | some d => ⟨.ok "Location request sent", [(d.wsId, OutMsg.requestLocation)], s⟩

/-- `POST /api/devices/:deviceId/request-contacts` — no online check. -/
def postRequestContacts (deviceId : String) (s : HubState) : RelayOutcome :=
  match mapGet deviceId s.connectedDevices with
  | none => ⟨.notFound "Device not found", [], s⟩
  | some d => ⟨.ok "Contacts request sent", [(d.wsId, OutMsg.requestContacts)], s⟩

/-- `POST /api/devices/:deviceId/request-files`. -/
def postRequestFiles (deviceId : String) (s : HubState) : RelayOutcome :=
  match mapGet deviceId s.connectedDevices with
  | none => ⟨.notFound "Device not found", [], s⟩
  | some d =>
      if !d.isOnline then ⟨.badRequest "Device is offline", [], s⟩
      else ⟨.ok "Files request sent", [(d.wsId, OutMsg.requestFiles)], s⟩

/-- `POST /api/devices/:deviceId/browse-directory`: updates the session's
`currentPath` immediately, then sends the instruction. -/
def postBrowseDirectory (deviceId : String) (path : String) (s : HubState) : RelayOutcome :=
  match mapGet deviceId s.connectedDevices with
  | none => ⟨.notFound "Device not found", [], s⟩
  | some d =>
      if !d.isOnline then ⟨.badRequest "Device is offline", [], s⟩
      else
        let cd := mapUpdate deviceId (fun dev => { dev with currentPath := path })
          s.connectedDevices
        ⟨.ok "Directory browse request sent", [(d.wsId, OutMsg.browseDirectory path)],
         { s with connectedDevices := cd }⟩

/-- `POST /api/devices/:deviceId/request-sms`. -/
def postRequestSms (deviceId : String) (s : HubState) : RelayOutcome :=
  match mapGet deviceId s.connectedDevices with
  | none => ⟨.notFound "Device not found", [], s⟩
  | some d =>
      if !d.isOnline then ⟨.badRequest "Device is offline", [], s⟩
      else ⟨.ok "SMS request sent", [(d.wsId, OutMsg.requestSms)], s⟩

/-- `POST /api/devices/:deviceId/request-call-log`. -/
def postRequestCallLog (deviceId : String) (s : HubState) : RelayOutcome :=
  match mapGet deviceId s.connectedDevices with
  | none => ⟨.notFound "Device not found", [], s⟩
  | some d =>
      if !d.isOnline then ⟨.badRequest "Device is offline", [], s⟩
      else ⟨.ok "Call log request sent", [(d.wsId, OutMsg.requestCallLog)], s⟩

/-- `POST /api/devices/:deviceId/download-file`. -/
def postDownloadFile (deviceId : String) (filePath : String) (s : HubState) : RelayOutcome :=
  match mapGet deviceId s.connectedDevices with
  | none => ⟨.notFound "Device not found", [], s⟩
  | some d =>
      if !d.isOnline then ⟨.badRequest "Device is offline", [], s⟩
      else ⟨.ok "File download request sent", [(d.wsId, OutMsg.downloadFile filePath)], s⟩

/-- `POST /api/devices/:deviceId/screenshot`; `req.body.quality || 'medium'`. -/
def postScreenshot (deviceId : String) (quality : Option String) (s : HubState) : RelayOutcome :=
  match mapGet deviceId s.connectedDevices with
  | none => ⟨.notFound "Device not found", [], s⟩
  | some d =>
      if !d.isOnline then ⟨.badRequest "Device is offline", [], s⟩
      else ⟨.ok "Screenshot request sent",
            [(d.wsId, OutMsg.takeScreenshot ((strTruthy quality).getD "medium"))], s⟩

/-- `POST /api/devices/:deviceId/start-microphone`. -/
def postStartMicrophone (deviceId : String) (quality : Option String) (s : HubState) :
    RelayOutcome :=
  match mapGet deviceId s.connectedDevices with
  | none => ⟨.notFound "Device not found", [], s⟩
  | some d =>
      if !d.isOnline then ⟨.badRequest "Device is offline", [], s⟩
      else ⟨.ok "Microphone start request sent",
            [(d.wsId, OutMsg.startMicrophone ((strTruthy quality).getD "medium"))], s⟩

/-- `POST /api/devices/:deviceId/stop-microphone`. -/
def postStopMicrophone (deviceId : String) (s : HubState) : RelayOutcome :=
  match mapGet deviceId s.connectedDevices with
  | none => ⟨.notFound "Device not found", [], s⟩
  | some d =>
      if !d.isOnline then ⟨.badRequest "Device is offline", [], s⟩
      else ⟨.ok "Microphone stop request sent", [(d.wsId, OutMsg.stopMicrophone)], s⟩

/-- `POST /api/devices/:deviceId/request-clipboard`. -/
def postRequestClipboard (deviceId : String) (s : HubState) : RelayOutcome :=
  match mapGet deviceId s.connectedDevices with
  | none => ⟨.notFound "Device not found", [], s⟩
  | some d =>
      if !d.isOnline then ⟨.badRequest "Device is offline", [], s⟩
      else ⟨.ok "Clipboard request sent", [(d.wsId, OutMsg.requestClipboard)], s⟩

/-- `POST /api/devices/:deviceId/request-notifications`. -/
def postRequestNotifications (deviceId : String) (s : HubState) : RelayOutcome :=
  match mapGet deviceId s.connectedDevices with
  | none => ⟨.notFound "Device not found", [], s⟩
  | some d =>
      if !d.isOnline then ⟨.badRequest "Device is offline", [], s⟩
      else ⟨.ok "Notifications request sent", [(d.wsId, OutMsg.requestNotifications)], s⟩

/-- `POST /api/devices/:deviceId/request-apps`. -/
def postRequestApps (deviceId : String) (s : HubState) : RelayOutcome :=
  match mapGet deviceId s.connectedDevices with
  | none => ⟨.notFound "Device not found", [], s⟩
  | some d =>
      if !d.isOnline then ⟨.badRequest "Device is offline", [], s⟩
      else ⟨.ok "Apps request sent", [(d.wsId, OutMsg.requestApps)], s⟩

/-- `POST /api/devices/:deviceId/request-permissions`. -/
def postRequestPermissions (deviceId : String) (s : HubState) : RelayOutcome :=
  match mapGet deviceId s.connectedDevices with
  | none => ⟨.notFound "Device not found", [], s⟩
  | some d =>
      if !d.isOnline then ⟨.badRequest "Device is offline", [], s⟩
      else ⟨.ok "Permissions request sent", [(d.wsId, OutMsg.requestPermissions)], s⟩

/-- `POST /api/devices/:deviceId/request-wifi`. -/
def postRequestWifi (deviceId : String) (s : HubState) : RelayOutcome :=
  match mapGet deviceId s.connectedDevices with
  | none => ⟨.notFound "Device not found", [], s⟩
  | some d =>
      if !d.isOnline then ⟨.badRequest "Device is offline", [], s⟩
      else ⟨.ok "WiFi request sent", [(d.wsId, OutMsg.requestWifi)], s⟩

/-- The multipart file received by `upload.single('file')`:
original name, staged content (read back base64-encoded), mime type. -/
structure UploadedFile where
  originalname : String
  contentB64 : String
  mimetype : String
deriving DecidableEq, Repr

/-- `POST /api/devices/:deviceId/upload-file`: checks existence, online,
then presence of the multipart file; sends the file to the device. -/
def postUploadFile (deviceId : String) (file : Option UploadedFile)
    (targetPath : Option String) (s : HubState) : RelayOutcome :=
  match mapGet deviceId s.connectedDevices with
  | none => ⟨.notFound "Device not found", [], s⟩
  | some d =>
      if !d.isOnline then ⟨.badRequest "Device is offline", [], s⟩
      else
        match file with
        | none => ⟨.badRequest "No file uploaded", [], s⟩
        | some f =>
            let tgt := (strTruthy targetPath).getD "/storage/emulated/0/Download"
            ⟨.ok "File uploaded to device",
             [(d.wsId, OutMsg.uploadFile f.originalname f.contentB64 tgt f.mimetype)], s⟩

/-- `POST /api/devices/:deviceId/share-file`. -/
def postShareFile (deviceId : String) (filePath : String) (s : HubState) : RelayOutcome :=
  match mapGet deviceId s.connectedDevices with
  | none => ⟨.notFound "Device not found", [], s⟩
  | some d =>
      if !d.isOnline then ⟨.badRequest "Device is offline", [], s⟩
      else ⟨.ok "File share request sent", [(d.wsId, OutMsg.shareFile filePath)], s⟩

/-- The relay commands of §4.2 of the spec that push an instruction to the
device, each carrying its endpoint's parameters. -/
inductive RelayCmd where
  | locate
  | listContacts
  | listFiles
  | browseDir (path : String)
  | listSms
  | listCallLog
  | downloadFile (filePath : String)
  | shareFile (filePath : String)
  | uploadFile (file : Option UploadedFile) (targetPath : Option String)
  | takeScreenshot (quality : Option String)
  | startMicrophone (quality : Option String)
  | stopMicrophone
  | requestClipboard
  | requestNotifications
  | requestApps
  | requestPermissions
  | requestWifi
deriving DecidableEq, Repr

/-- Dispatch a relay command to its endpoint handler. -/
def relay : RelayCmd → String → HubState → RelayOutcome
  | .locate, id, s => postRequestLocation id s
  | .listContacts, id, s => postRequestContacts id s
  | .listFiles, id, s => postRequestFiles id s
  | .browseDir p, id, s => postBrowseDirectory id p s
  | .listSms, id, s => postRequestSms id s
  | .listCallLog, id, s => postRequestCallLog id s
  | .downloadFile p, id, s => postDownloadFile id p s
  | .shareFile p, id, s => postShareFile id p s
  | .uploadFile f t, id, s => postUploadFile id f t s
  | .takeScreenshot q, id, s => postScreenshot id q s
  | .startMicrophone q, id, s => postStartMicrophone id q s
  | .stopMicrophone, id, s => postStopMicrophone id s
  | .requestClipboard, id, s => postRequestClipboard id s
  | .requestNotifications, id, s => postRequestNotifications id s
  | .requestApps, id, s => postRequestApps id s
  | .requestPermissions, id, s => postRequestPermissions id s
  | .requestWifi, id, s => postRequestWifi id s

/-- Which relay endpoints guard on `device.isOnline` in the source:
all of them except `request-location` and `request-contacts`. -/
def checksOnline : RelayCmd → Bool
  | .locate => false
  | .listContacts => false
  | _ => true

/-- The JSON body served by `GET /api/devices/:deviceId` (fields the
claims refer to). -/
structure DeviceView where
  id : String
  deviceName : String
  lastSeen : Option Nat
  isOnline : Bool
  location : Option String
  contacts : List String
  sms : SmsData
  callLog : List String
  files : List String
  currentPath : String
deriving DecidableEq, Repr

/-- `GET /api/devices/:deviceId`: live view when connected (even if
offline), otherwise the empty-fields history view, otherwise 404 (`none`). -/
def getDevice (deviceId : String) (s : HubState) : Option DeviceView :=
  match mapGet deviceId s.connectedDevices with
  | some d =>
      some { id := d.id, deviceName := d.info.deviceName, lastSeen := some d.lastSeen,
             isOnline := d.isOnline, location := d.location, contacts := d.contacts,
             sms := d.sms, callLog := d.callLog, files := d.files,
             currentPath := d.currentPath }
  | none =>
      match mapGet deviceId s.deviceHistory with
      | none => none
      | some h =>
          some { id := h.id, deviceName := h.info.deviceName, lastSeen := h.lastSeen,
                 isOnline := false, location := none, contacts := [],
                 sms := { messages := [], error := none }, callLog := [], files := [],
                 currentPath := "/storage/emulated/0" }

/-- Result of `GET /api/devices/:deviceId/latest-screenshot`. -/
inductive ScreenshotFetch where
  | notFound
  | serverError (e : String)
  | image (body : String) (contentType : String)
deriving DecidableEq, Repr

/-- `GET /api/devices/:deviceId/latest-screenshot`: 404 when no snapshot,
500 when the snapshot is an error marker, else the stored payload with
`image/<format>` as content type.  The `getD` defaults model JavaScript's
coercion of an absent key, which no stored entry actually exercises. -/
def getLatestScreenshot (deviceId : String) (s : HubState) : ScreenshotFetch :=
  match mapGet deviceId s.deviceScreenshots with
  | none => .notFound
  | some sc =>
      match sc.errMsg with
      | some e => .serverError e
      | none => .image (sc.imgData.getD "") ("image/" ++ (sc.format.getD "undefined"))

/-- `GET /api/devices/:deviceId/clipboard`. -/
def getClipboard (deviceId : String) (s : HubState) : List ClipEntry :=
  (mapGet deviceId s.deviceClipboard).getD []

/-- `GET /api/devices/:deviceId/notifications`. -/
def getNotifications (deviceId : String) (s : HubState) : List NotifEntry :=
  (mapGet deviceId s.deviceNotifications).getD []

/-! ### Lemmas about the association-list maps and connection scans -/

theorem mapGet_mapSet_self {β : Type} (k : String) (v : β) (m : List (String × β)) :
    mapGet k (mapSet k v m) = some v := by
  induction m with
  | nil => simp [mapGet, mapSet]
  | cons p rest ih =>
      obtain ⟨k', v'⟩ := p
      by_cases h : k = k'
      · simp [mapGet, mapSet, h]
      · simp [mapGet, mapSet, h, ih]

theorem mapGet_mapSet_ne {β : Type} {k k' : String} (h : k ≠ k') (v : β)
    (m : List (String × β)) : mapGet k (mapSet k' v m) = mapGet k m := by
  induction m with
  | nil => simp [mapGet, mapSet, h]
  | cons p rest ih =>
      obtain ⟨k₀, v₀⟩ := p
      by_cases h0 : k' = k₀
      · subst h0; simp [mapGet, mapSet, h]
      · by_cases h1 : k = k₀ <;> simp [mapGet, mapSet, h0, h1, ih]

theorem mapGet_mapUpdate {β : Type} (k k' : String) (f : β → β) (m : List (String × β)) :
    mapGet k (mapUpdate k' f m) =
      if k = k' then (mapGet k m).map f else mapGet k m := by
  induction m with
  | nil => by_cases h : k = k' <;> simp [mapGet, mapUpdate, h]
  | cons p rest ih =>
      obtain ⟨k₀, v₀⟩ := p
      by_cases h0 : k' = k₀
      · subst h0
        by_cases h1 : k = k' <;> simp [mapGet, mapUpdate, h1, ih]
      · by_cases h1 : k = k₀
        · subst h1
          have : ¬ k = k' := fun hh => h0 hh.symm
          simp [mapGet, mapUpdate, h0, this]
        · simp [mapGet, mapUpdate, h0, h1, ih]

theorem mem_mapSet {β : Type} {p : String × β} {k : String} {v : β}
    {m : List (String × β)} (hnd : (m.map Prod.fst).Nodup)
    (hp : p ∈ mapSet k v m) : p = (k, v) ∨ (p ∈ m ∧ p.1 ≠ k) := by
  induction m with
  | nil => simp [mapSet] at hp; exact Or.inl hp
  | cons q rest ih =>
      obtain ⟨k₀, v₀⟩ := q
      simp only [List.map_cons, List.nodup_cons] at hnd
      by_cases h0 : k = k₀
      · subst h0
        rw [mapSet, if_pos rfl] at hp
        rcases List.mem_cons.mp hp with h | h
        · exact Or.inl h
        · refine Or.inr ⟨List.mem_cons_of_mem _ h, ?_⟩
          intro hk
          exact hnd.1 (hk ▸ List.mem_map_of_mem Prod.fst h)
      · rw [mapSet, if_neg h0] at hp
        rcases List.mem_cons.mp hp with h | h
        · subst h
          exact Or.inr ⟨List.mem_cons_self _ _, fun hk => h0 hk.symm⟩
        · rcases ih hnd.2 h with h1 | h1
          · exact Or.inl h1
          · exact Or.inr ⟨List.mem_cons_of_mem _ h1.1, h1.2⟩

theorem findByWs_eq_none_iff {w : Nat} {l : List (String × LiveSession)} :
    findByWs w l = none ↔ ∀ p ∈ l, p.2.wsId ≠ w := by
  induction l with
  | nil => simp [findByWs]
  | cons p rest ih =>
      obtain ⟨k, d⟩ := p
      by_cases h : d.wsId = w
      · simp [findByWs, h]
      · simp [findByWs, h, ih]

theorem updateByWs_of_none {w : Nat} {l : List (String × LiveSession)}
    (h : findByWs w l = none) (f : LiveSession → LiveSession) :
    updateByWs w f l = l := by
  induction l with
  | nil => simp [updateByWs]
  | cons p rest ih =>
      obtain ⟨k, d⟩ := p
      by_cases h0 : d.wsId = w
      · simp [findByWs, h0] at h
      · simp only [findByWs, if_neg h0] at h
        simp [updateByWs, h0, ih h]

theorem findByWs_wsId {w : Nat} {l : List (String × LiveSession)} {k : String}
    {d : LiveSession} (h : findByWs w l = some (k, d)) : d.wsId = w := by
  induction l with
  | nil => simp [findByWs] at h
  | cons p rest ih =>
      obtain ⟨k₀, d₀⟩ := p
      by_cases h0 : d₀.wsId = w
      · simp only [findByWs, if_pos h0, Option.some.injEq] at h
        obtain ⟨rfl, rfl⟩ := Prod.mk.injEq .. ▸ h
        exact h0
      · simp only [findByWs, if_neg h0] at h
        exact ih h

theorem findByWs_mem {w : Nat} {l : List (String × LiveSession)} {k : String}
    {d : LiveSession} (h : findByWs w l = some (k, d)) : (k, d) ∈ l := by
  induction l with
  | nil => simp [findByWs] at h
  | cons p rest ih =>
      obtain ⟨k₀, d₀⟩ := p
      by_cases h0 : d₀.wsId = w
      · simp only [findByWs, if_pos h0, Option.some.injEq] at h
        exact h ▸ List.mem_cons_self _ _
      · simp only [findByWs, if_neg h0] at h
        exact List.mem_cons_of_mem _ (ih h)

theorem mapGet_updateByWs {w : Nat} {l : List (String × LiveSession)} {k : String}
    {d : LiveSession} (hnd : (l.map Prod.fst).Nodup)
    (h : findByWs w l = some (k, d)) (f : LiveSession → LiveSession) :
    mapGet k (updateByWs w f l) = some (f d) := by
  induction l with
  | nil => simp [findByWs] at h
  | cons p rest ih =>
      obtain ⟨k₀, d₀⟩ := p
      simp only [List.map_cons, List.nodup_cons] at hnd
      by_cases h0 : d₀.wsId = w
      · simp only [findByWs, if_pos h0, Option.some.injEq] at h
        obtain ⟨rfl, rfl⟩ := Prod.mk.injEq .. ▸ h
        simp [updateByWs, h0, mapGet]
      · simp only [findByWs, if_neg h0] at h
        have hk : k ≠ k₀ := by
          intro hk
          exact hnd.1 (hk ▸ List.mem_map_of_mem Prod.fst (findByWs_mem h))
        simp [updateByWs, h0, mapGet, hk, ih hnd.2 h]

theorem mapGet_of_findByWs {w : Nat} {l : List (String × LiveSession)} {k : String}
    {d : LiveSession} (hnd : (l.map Prod.fst).Nodup)
    (h : findByWs w l = some (k, d)) : mapGet k l = some d := by
  induction l with
  | nil => simp [findByWs] at h
  | cons p rest ih =>
      obtain ⟨k₀, d₀⟩ := p
      simp only [List.map_cons, List.nodup_cons] at hnd
      by_cases h0 : d₀.wsId = w
      · simp only [findByWs, if_pos h0, Option.some.injEq] at h
        obtain ⟨rfl, rfl⟩ := Prod.mk.injEq .. ▸ h
        simp [mapGet]
      · simp only [findByWs, if_neg h0] at h
        have hk : k ≠ k₀ := by
          intro hk
          exact hnd.1 (hk ▸ List.mem_map_of_mem Prod.fst (findByWs_mem h))
        simp [mapGet, hk, ih hnd.2 h]

theorem closeScan_eq (now w : Nat) (cd : List (String × LiveSession))
    (hist : List (String × DeviceHistory)) :
    closeScan now w cd hist =
      (updateByWs w (sessionOffline now) cd,
       match findByWs w cd with
       | none => hist
       | some kd => mapUpdate kd.1 (historyOffline now) hist) := by
  induction cd with
  | nil => simp [closeScan, updateByWs, findByWs]
  | cons p rest ih =>
      obtain ⟨k, d⟩ := p
      by_cases h0 : d.wsId = w
      · simp [closeScan, updateByWs, findByWs, h0]
      · simp [closeScan, updateByWs, findByWs, h0, ih]

theorem handleClose_connectedDevices (now w : Nat) (s : HubState) :
    (handleClose now w s).connectedDevices =
      updateByWs w (sessionOffline now) s.connectedDevices := by
  simp [handleClose, closeScan_eq]

theorem handleClose_deviceHistory (now w : Nat) (s : HubState) :
    (handleClose now w s).deviceHistory =
      match findByWs w s.connectedDevices with
      | none => s.deviceHistory
      | some kd => mapUpdate kd.1 (historyOffline now) s.deviceHistory := by
  simp [handleClose, closeScan_eq]

theorem firstSeen_handleClose (now w : Nat) (s : HubState) (k : String) :
    (mapGet k (handleClose now w s).deviceHistory).map (·.firstSeen) =
      (mapGet k s.deviceHistory).map (·.firstSeen) := by
  rw [handleClose_deviceHistory]
  cases hf : findByWs w s.connectedDevices with
  | none => rfl
  | some kd =>
      simp only [mapGet_mapUpdate]
      by_cases h : k = kd.1
      · cases hg : mapGet k s.deviceHistory <;> simp [h, hg, historyOffline]
      · simp [h]

theorem truncate_eq_take {α : Type} (l : List α) (n : Nat) :
    (if l.length > n then l.take n else l) = l.take n := by
  by_cases h : l.length > n
  · rw [if_pos h]
  · rw [if_neg h, List.take_of_length_le (Nat.le_of_not_lt h)]

theorem mapSet_forall {β : Type} (P : β → Prop) {m : List (String × β)} {k : String}
    {v : β} (hm : ∀ p ∈ m, P p.2) (hv : P v) : ∀ p ∈ mapSet k v m, P p.2 := by
  induction m with
  | nil => simpa [mapSet] using hv
  | cons q rest ih =>
      obtain ⟨k₀, v₀⟩ := q
      by_cases h0 : k = k₀
      · rw [mapSet, if_pos h0]
        intro p hp
        rcases List.mem_cons.mp hp with h | h
        · exact h ▸ hv
        · exact hm p (List.mem_cons_of_mem _ h)
      · rw [mapSet, if_neg h0]
        intro p hp
        rcases List.mem_cons.mp hp with h | h
        · exact hm p (h ▸ List.mem_cons_self _ _)
        · exact ih (fun q hq => hm q (List.mem_cons_of_mem _ hq)) p h

theorem findByWs_mapSet_none {w : Nat} {l : List (String × LiveSession)} {k : String}
    {v : LiveSession} (hnd : (l.map Prod.fst).Nodup)
    (hb : ∀ p ∈ l, p.2.wsId = w → p.1 = k) (hv : v.wsId ≠ w) :
    findByWs w (mapSet k v l) = none := by
  rw [findByWs_eq_none_iff]
  intro p hp
  rcases mem_mapSet hnd hp with h | h
  · rw [h]; exact hv
  · exact fun hw => h.2 (hb p h.1 hw)

/-! ### Concrete scenario states used by witnesses and counterexamples -/

/-- A sample device identity for concrete scenarios. -/
def sampleInfo : DeviceInfo :=
  { deviceName := "Pixel", brand := "Google", model := "P8", platform := "android",
    systemVersion := "14" }

/-- Connection 0 accepted and device `"d"` registered on it at time 1. -/
def regState : HubState :=
  (handleRawMessage 1 0 (some (DeviceMsg.register (some "d") sampleInfo))
    (acceptConn 0 initState)).1

/-- `regState` after connection 0 closed at time 2: device `"d"` offline. -/
def offState : HubState := handleClose 2 0 regState

/-! ### Claim theorems -/

/-- C8: an inbound message with an unrecognized kind, or an undecodable
inbound frame, is logged and discarded: the handler does not throw or close
the connection and leaves all device state, history and caches (the whole
`HubState`, open connections included) unchanged, performing no sends. -/
theorem unknown_or_malformed_discarded (now w : Nat) (s : HubState) (k : String) :
    handleRawMessage now w none s = (s, []) ∧
    handleRawMessage now w (some (DeviceMsg.unknown k)) s = (s, []) :=
  ⟨rfl, rfl⟩

/-- C9: a `ping` from a device connection changes no state (device history,
live sessions and all caches are exactly as before), and when the connection
is open the hub replies with a single `pong` on that connection. -/
theorem ping_pong_frame (now w : Nat) (s : HubState) :
    (handleDeviceMessage now w DeviceMsg.ping s).1 = s ∧
    (s.openConns.contains w = true →
      (handleDeviceMessage now w DeviceMsg.ping s).2 = [(w, OutMsg.pong)]) := by
  refine ⟨rfl, fun h => ?_⟩
  have hm : w ∈ s.openConns := by simpa using h
  simp [handleDeviceMessage, hm]

/-- Witness for C9 at a concrete open connection. -/
theorem ping_pong_frame_witness :
    (handleDeviceMessage 9 0 DeviceMsg.ping regState).1 = regState ∧
    (handleDeviceMessage 9 0 DeviceMsg.ping regState).2 = [(0, OutMsg.pong)] :=
  ⟨(ping_pong_frame 9 0 regState).1, (ping_pong_frame 9 0 regState).2 (by decide)⟩

/-- C5: relaying `browse-directory(path)` to an existing, online device
succeeds, sets the device's `currentPath` to `path` in the state the relay
itself returns (hence synchronously, before any device confirmation is
processed), and sends the `browse_directory` instruction on the device's
connection. -/
theorem browse_directory_sets_path (s : HubState) (deviceId path : String)
    (d : LiveSession) (hd : mapGet deviceId s.connectedDevices = some d)
    (hon : d.isOnline = true) :
    (postBrowseDirectory deviceId path s).status =
        ApiStatus.ok "Directory browse request sent" ∧
    (postBrowseDirectory deviceId path s).sends = [(d.wsId, OutMsg.browseDirectory path)] ∧
    mapGet deviceId (postBrowseDirectory deviceId path s).state.connectedDevices =
      some { d with currentPath := path } := by
  simp [postBrowseDirectory, hd, hon, mapGet_mapUpdate]

/-- Witness for C5 on the concrete registered device. -/
theorem browse_directory_sets_path_witness :
    (postBrowseDirectory "d" "/x" regState).status =
        ApiStatus.ok "Directory browse request sent" ∧
    (postBrowseDirectory "d" "/x" regState).sends = [(0, OutMsg.browseDirectory "/x")] ∧
    mapGet "d" (postBrowseDirectory "d" "/x" regState).state.connectedDevices =
      some { freshSession 0 1 "d" sampleInfo with currentPath := "/x" } :=
  browse_directory_sets_path regState "d" "/x" (freshSession 0 1 "d" sampleInfo)
    (by decide) (by decide)

/-- C7: with no stored snapshot, `latest-screenshot` yields NotFound; after
the device answers `screenshot_response` with an image payload, fetching
`latest-screenshot` returns exactly that payload with its declared format
as the `image/<format>` content type. -/
theorem latest_screenshot_lifecycle (s : HubState) (now w : Nat)
    (deviceId : String) (d : LiveSession) (img : String) (fmt : Option String)
    (hnone : mapGet deviceId s.deviceScreenshots = none)
    (hfind : findByWs w s.connectedDevices = some (deviceId, d))
    (himg : img ≠ "") :
    getLatestScreenshot deviceId s = ScreenshotFetch.notFound ∧
    getLatestScreenshot deviceId
        (handleDeviceMessage now w (DeviceMsg.screenshotResponse (some img) none fmt) s).1 =
      ScreenshotFetch.image img ("image/" ++ (strTruthy fmt).getD "png") := by
  constructor
  · simp [getLatestScreenshot, hnone]
  · simp [handleDeviceMessage, hfind, strTruthy, himg, getLatestScreenshot,
      mapGet_mapSet_self]

/-- Witness for C7 on the concrete registered device. -/
theorem latest_screenshot_lifecycle_witness :
    getLatestScreenshot "d" regState = ScreenshotFetch.notFound ∧
    getLatestScreenshot "d"
        (handleDeviceMessage 7 0 (DeviceMsg.screenshotResponse (some "IMG") none none)
          regState).1 =
      ScreenshotFetch.image "IMG" "image/png" := by
  have h := latest_screenshot_lifecycle regState 7 0 "d" (freshSession 0 1 "d" sampleInfo)
    "IMG" none (by decide) (by decide) (by decide)
  exact ⟨h.1, h.2.trans (by decide)⟩

/-- C4: the clipboard history never exceeds 50 entries and the
notifications history never exceeds 100; each response prepends the new
data (newest first) and the stored list is exactly the capacity-many newest
entries, truncated from the tail. -/
theorem bounded_caches_capped (s : HubState) (now w : Nat) (c : String)
    (ns : List String) (deviceId : String) (d : LiveSession)
    (hfind : findByWs w s.connectedDevices = some (deviceId, d))
    (hclip : ∀ p ∈ s.deviceClipboard, p.2.length ≤ 50)
    (hnot : ∀ p ∈ s.deviceNotifications, p.2.length ≤ 100) :
    (∀ p ∈ (handleDeviceMessage now w (DeviceMsg.clipboardResponse c) s).1.deviceClipboard,
        p.2.length ≤ 50) ∧
    mapGet deviceId
        (handleDeviceMessage now w (DeviceMsg.clipboardResponse c) s).1.deviceClipboard =
      some (List.take 50
        ({ content := c, timestamp := now } :: (mapGet deviceId s.deviceClipboard).getD [])) ∧
    (∀ p ∈ (handleDeviceMessage now w
        (DeviceMsg.notificationsResponse (some ns)) s).1.deviceNotifications,
        p.2.length ≤ 100) ∧
    mapGet deviceId (handleDeviceMessage now w
        (DeviceMsg.notificationsResponse (some ns)) s).1.deviceNotifications =
      some (List.take 100
        (ns.map (fun n => { payload := n, receivedAt := now }) ++
          (mapGet deviceId s.deviceNotifications).getD [])) := by
  have hc : (handleDeviceMessage now w (DeviceMsg.clipboardResponse c) s).1.deviceClipboard =
      mapSet deviceId
        (List.take 50
          ({ content := c, timestamp := now } :: (mapGet deviceId s.deviceClipboard).getD []))
        s.deviceClipboard := by
    simp only [handleDeviceMessage, hfind, truncate_eq_take]
  have hn : (handleDeviceMessage now w
        (DeviceMsg.notificationsResponse (some ns)) s).1.deviceNotifications =
      mapSet deviceId
        (List.take 100
          (ns.map (fun n => { payload := n, receivedAt := now }) ++
            (mapGet deviceId s.deviceNotifications).getD []))
        s.deviceNotifications := by
    simp only [handleDeviceMessage, hfind, truncate_eq_take]
  refine ⟨?_, ?_, ?_, ?_⟩
  · rw [hc]
    refine mapSet_forall (fun l : List ClipEntry => l.length ≤ 50) hclip ?_
    simp [List.length_take]
  · rw [hc, mapGet_mapSet_self]
  · rw [hn]
    refine mapSet_forall (fun l : List NotifEntry => l.length ≤ 100) hnot ?_
    simp [List.length_take]
  · rw [hn, mapGet_mapSet_self]

/-- Witness for C4 on the concrete registered device, inserting past both
caps from empty caches (concrete truncation shapes evaluated). -/
theorem bounded_caches_capped_witness :
    (∀ p ∈ (handleDeviceMessage 3 0 (DeviceMsg.clipboardResponse "x")
        regState).1.deviceClipboard, p.2.length ≤ 50) ∧
    mapGet "d" (handleDeviceMessage 3 0 (DeviceMsg.clipboardResponse "x")
        regState).1.deviceClipboard =
      some [{ content := "x", timestamp := 3 }] ∧
    mapGet "d" (handleDeviceMessage 3 0 (DeviceMsg.notificationsResponse (some ["a", "b"]))
        regState).1.deviceNotifications =
      some [{ payload := "a", receivedAt := 3 }, { payload := "b", receivedAt := 3 }] := by
  have h := bounded_caches_capped regState 3 0 "x" ["a", "b"] "d"
    (freshSession 0 1 "d" sampleInfo) (by decide) (by decide) (by decide)
  exact ⟨h.1, h.2.1.trans (by decide), h.2.2.2.trans (by decide)⟩

/-- C3: closing the connection of an online device sets its
`DeviceHistory.isOnline` to false and `lastSeen` to now; the live session
changes only in `isOnline` and `lastSeen`, so every previously-stored field
(contacts, location, files, sms, callLog, currentPath) remains readable via
`GET /api/devices/:deviceId` with its last value, and no cache map is
touched. -/
theorem close_offline_frame (s : HubState) (now w : Nat) (deviceId : String)
    (d : LiveSession) (h : DeviceHistory)
    (hnd : (s.connectedDevices.map Prod.fst).Nodup)
    (hfind : findByWs w s.connectedDevices = some (deviceId, d))
    (hh : mapGet deviceId s.deviceHistory = some h)
    (hon : d.isOnline = true) :
    mapGet deviceId (handleClose now w s).deviceHistory =
      some { h with lastSeen := some now, isOnline := some false } ∧
    mapGet deviceId (handleClose now w s).connectedDevices =
      some { d with isOnline := false, lastSeen := now } ∧
    getDevice deviceId (handleClose now w s) =
      some { id := d.id, deviceName := d.info.deviceName, lastSeen := some now,
             isOnline := false, location := d.location, contacts := d.contacts,
             sms := d.sms, callLog := d.callLog, files := d.files,
             currentPath := d.currentPath } ∧
    (handleClose now w s).deviceScreenshots = s.deviceScreenshots ∧
    (handleClose now w s).deviceClipboard = s.deviceClipboard ∧
    (handleClose now w s).deviceNotifications = s.deviceNotifications := by
  have h2 : mapGet deviceId (handleClose now w s).connectedDevices =
      some { d with isOnline := false, lastSeen := now } := by
    rw [handleClose_connectedDevices]
    simpa [sessionOffline] using mapGet_updateByWs hnd hfind (sessionOffline now)
  refine ⟨?_, h2, ?_, ?_, ?_, ?_⟩
  · rw [handleClose_deviceHistory]
    simp [hfind, mapGet_mapUpdate, hh, historyOffline]
  · simp [getDevice, h2]
  · simp [handleClose]
  · simp [handleClose]
  · simp [handleClose]

/-- Witness for C3 on the concrete registered device at close time 2. -/
theorem close_offline_frame_witness :
    mapGet "d" offState.deviceHistory =
      some { info := sampleInfo, id := "d", firstSeen := 1, totalConnections := 1,
             lastSeen := some 2, isOnline := some false } ∧
    mapGet "d" offState.connectedDevices =
      some { freshSession 0 1 "d" sampleInfo with isOnline := false, lastSeen := 2 } := by
  have h := close_offline_frame regState 2 0 "d" (freshSession 0 1 "d" sampleInfo)
    { info := sampleInfo, id := "d", firstSeen := 1, totalConnections := 1,
      lastSeen := none, isOnline := none }
    (by decide) (by decide) (by decide) (by decide)
  exact ⟨h.1, h.2.1⟩

/-- C2 counterexample: registering device `"d"` at time 1 does not set
`DeviceHistory("d").lastSeen` to the current time — the history record is
written without a `lastSeen` at all. -/
theorem register_lastSeen_cex :
    (mapGet "d" regState.deviceHistory).map (·.lastSeen) = some none ∧
    ¬ (mapGet "d" regState.deviceHistory).map (·.lastSeen) = some (some 1) := by
  decide

/-- C2 (amended): each registration of deviceId increments
`DeviceHistory.totalConnections` by exactly 1; `firstSeen` is set at the
first registration and unchanged by later registrations and connection
closes; registration sets the LiveSession's `lastSeen` to now but leaves
`DeviceHistory.lastSeen` unset (it is only written at connection close). -/
theorem register_history_updates (s : HubState) (now w : Nat) (deviceId : String)
    (info : DeviceInfo) (hid : deviceId ≠ "") :
    (mapGet deviceId (handleDeviceMessage now w
        (DeviceMsg.register (some deviceId) info) s).1.deviceHistory).map
        (·.totalConnections) =
      some (((mapGet deviceId s.deviceHistory).map (·.totalConnections)).getD 0 + 1) ∧
    (mapGet deviceId s.deviceHistory = none →
      (mapGet deviceId (handleDeviceMessage now w
          (DeviceMsg.register (some deviceId) info) s).1.deviceHistory).map
          (·.firstSeen) = some now) ∧
    (∀ h, mapGet deviceId s.deviceHistory = some h →
      (mapGet deviceId (handleDeviceMessage now w
          (DeviceMsg.register (some deviceId) info) s).1.deviceHistory).map
          (·.firstSeen) = some h.firstSeen) ∧
    (mapGet deviceId (handleDeviceMessage now w
        (DeviceMsg.register (some deviceId) info) s).1.deviceHistory).map
        (·.lastSeen) = some none ∧
    (mapGet deviceId (handleDeviceMessage now w
        (DeviceMsg.register (some deviceId) info) s).1.connectedDevices).map
        (·.lastSeen) = some now ∧
    (∀ now2 w2,
      (mapGet deviceId (handleClose now2 w2 (handleDeviceMessage now w
          (DeviceMsg.register (some deviceId) info) s).1).deviceHistory).map
          (·.firstSeen) =
        (mapGet deviceId (handleDeviceMessage now w
          (DeviceMsg.register (some deviceId) info) s).1.deviceHistory).map
          (·.firstSeen)) := by
  have hs : strTruthy (some deviceId) = some deviceId := by simp [strTruthy, hid]
  refine ⟨?_, ?_, ?_, ?_, ?_, fun now2 w2 => firstSeen_handleClose now2 w2 _ deviceId⟩
  · simp [handleDeviceMessage, hs, mapGet_mapSet_self]
  · intro h0; simp [handleDeviceMessage, hs, mapGet_mapSet_self, h0]
  · intro h h0; simp [handleDeviceMessage, hs, mapGet_mapSet_self, h0]
  · simp [handleDeviceMessage, hs, mapGet_mapSet_self]
  · simp [handleDeviceMessage, hs, mapGet_mapSet_self, freshSession]

/-- Witness for C2's amended theorem: re-registering the concrete device
after a close gives totalConnections 2, keeps firstSeen 1, stamps the live
session's lastSeen with the registration time. -/
theorem register_history_updates_witness :
    (mapGet "d" (handleDeviceMessage 3 1 (DeviceMsg.register (some "d") sampleInfo)
        offState).1.deviceHistory).map (·.totalConnections) = some 2 ∧
    (mapGet "d" (handleDeviceMessage 3 1 (DeviceMsg.register (some "d") sampleInfo)
        offState).1.deviceHistory).map (·.firstSeen) = some 1 ∧
    (mapGet "d" (handleDeviceMessage 3 1 (DeviceMsg.register (some "d") sampleInfo)
        offState).1.connectedDevices).map (·.lastSeen) = some 3 := by
  have h := register_history_updates offState 3 1 "d" sampleInfo (by decide)
  have h2 := h.2.2.1
    { info := sampleInfo, id := "d", firstSeen := 1, totalConnections := 1,
      lastSeen := some 2, isOnline := some false } (by decide)
  exact ⟨h.1.trans (by decide), h2, h.2.2.2.2.1⟩

/-- C1 counterexample: with device `"d"` registered and then its connection
closed (`isOnline = false`), `request-location` does not fail with
Unavailable: it succeeds and pushes the instruction to the stale
connection. -/
theorem relay_offline_guard_cex :
    (mapGet "d" offState.connectedDevices).map (·.isOnline) = some false ∧
    (postRequestLocation "d" offState).status = ApiStatus.ok "Location request sent" ∧
    (postRequestLocation "d" offState).sends = [(0, OutMsg.requestLocation)] := by
  decide

/-- C1 (amended): every relay command first checks that a device record
exists (else NotFound with no outbound send and no state change); every
command except locate (`request-location`) and list-contacts
(`request-contacts`) then checks that the device is online (else
Unavailable/400 with no send and no state change); locate and list-contacts
skip the online check and push to the connection even when the device is
offline. -/
theorem relay_precondition_checks (cmd : RelayCmd) (deviceId : String) (s : HubState) :
    (mapGet deviceId s.connectedDevices = none →
      (relay cmd deviceId s).status = ApiStatus.notFound "Device not found" ∧
      (relay cmd deviceId s).sends = [] ∧ (relay cmd deviceId s).state = s) ∧
    (∀ d, mapGet deviceId s.connectedDevices = some d → d.isOnline = false →
      checksOnline cmd = true →
      (relay cmd deviceId s).status = ApiStatus.badRequest "Device is offline" ∧
      (relay cmd deviceId s).sends = [] ∧ (relay cmd deviceId s).state = s) ∧
    (∀ d, mapGet deviceId s.connectedDevices = some d → d.isOnline = false →
      checksOnline cmd = false → (relay cmd deviceId s).sends ≠ []) := by
  refine ⟨fun h => ?_, fun d hd hoff hchk => ?_, fun d hd hoff hchk => ?_⟩
  · cases cmd <;>
      simp [relay, postRequestLocation, postRequestContacts, postRequestFiles,
        postBrowseDirectory, postRequestSms, postRequestCallLog, postDownloadFile,
        postScreenshot, postStartMicrophone, postStopMicrophone, postRequestClipboard,
        postRequestNotifications, postRequestApps, postRequestPermissions,
        postRequestWifi, postUploadFile, postShareFile, h]
  · cases cmd <;>
      simp_all [relay, checksOnline, postRequestFiles, postBrowseDirectory,
        postRequestSms, postRequestCallLog, postDownloadFile, postScreenshot,
        postStartMicrophone, postStopMicrophone, postRequestClipboard,
        postRequestNotifications, postRequestApps, postRequestPermissions,
        postRequestWifi, postUploadFile, postShareFile]
  · cases cmd <;>
      simp_all [relay, checksOnline, postRequestLocation, postRequestContacts]

/-- Witness for C1's amended theorem at concrete inputs. -/
theorem relay_precondition_checks_witness :
    (relay RelayCmd.listFiles "nope" offState).status =
        ApiStatus.notFound "Device not found" ∧
    (relay RelayCmd.listFiles "d" offState).status =
        ApiStatus.badRequest "Device is offline" ∧
    (relay RelayCmd.listFiles "d" offState).sends = [] := by
  have h1 := (relay_precondition_checks RelayCmd.listFiles "nope" offState).1 (by decide)
  have h2 := (relay_precondition_checks RelayCmd.listFiles "d" offState).2.1
    (sessionOffline 2 (freshSession 0 1 "d" sampleInfo)) (by decide) (by decide) (by decide)
  exact ⟨h1.1, h2.1, h2.2.1⟩

/-- C6 counterexample: a successful `screenshot_response` does affect the
device's LiveSession: its `latestScreenshot` field changes from `none` to
the receipt time. -/
theorem screenshot_touches_livesession_cex :
    (mapGet "d" regState.connectedDevices).map (·.latestScreenshot) = some none ∧
    (mapGet "d" (handleDeviceMessage 7 0
        (DeviceMsg.screenshotResponse (some "IMG") none none)
        regState).1.connectedDevices).map (·.latestScreenshot) = some (some 7) := by
  decide

/-- C6 (amended): for a `screenshot_response` from a registered connection,
image data replaces the screenshot snapshot wholesale with the payload and
format tag and updates the LiveSession only by setting `latestScreenshot`
to the receipt time (no other session field, and no history entry, changes);
an error payload replaces the snapshot with an error marker and leaves the
LiveSession entirely unchanged. -/
theorem screenshot_response_updates (s : HubState) (now w : Nat) (deviceId : String)
    (d : LiveSession) (img e : String) (fmt : Option String)
    (hnd : (s.connectedDevices.map Prod.fst).Nodup)
    (hfind : findByWs w s.connectedDevices = some (deviceId, d))
    (himg : img ≠ "") (he : e ≠ "") :
    (mapGet deviceId (handleDeviceMessage now w
        (DeviceMsg.screenshotResponse (some img) none fmt) s).1.deviceScreenshots =
      some { imgData := some img, format := some ((strTruthy fmt).getD "png"),
             errMsg := none, timestamp := now } ∧
     mapGet deviceId (handleDeviceMessage now w
        (DeviceMsg.screenshotResponse (some img) none fmt) s).1.connectedDevices =
      some { d with latestScreenshot := some now } ∧
     (handleDeviceMessage now w
        (DeviceMsg.screenshotResponse (some img) none fmt) s).1.deviceHistory =
      s.deviceHistory) ∧
    (mapGet deviceId (handleDeviceMessage now w
        (DeviceMsg.screenshotResponse none (some e) none) s).1.deviceScreenshots =
      some { imgData := none, format := none, errMsg := some e, timestamp := now } ∧
     (handleDeviceMessage now w
        (DeviceMsg.screenshotResponse none (some e) none) s).1.connectedDevices =
      s.connectedDevices) := by
  refine ⟨⟨?_, ?_, ?_⟩, ?_, ?_⟩
  · simp [handleDeviceMessage, hfind, strTruthy, himg, mapGet_mapSet_self]
  · have hu := mapGet_updateByWs hnd hfind
      (fun dev => { dev with latestScreenshot := some now })
    simpa [handleDeviceMessage, hfind, strTruthy, himg] using hu
  · simp [handleDeviceMessage, hfind, strTruthy, himg]
  · simp [handleDeviceMessage, hfind, strTruthy, he, mapGet_mapSet_self]
  · simp [handleDeviceMessage, hfind, strTruthy, he]

/-- Witness for C6's amended theorem on the concrete registered device. -/
theorem screenshot_response_updates_witness :
    mapGet "d" (handleDeviceMessage 7 0
        (DeviceMsg.screenshotResponse (some "IMG") none none)
        regState).1.deviceScreenshots =
      some { imgData := some "IMG", format := some "png", errMsg := none, timestamp := 7 } ∧
    mapGet "d" (handleDeviceMessage 8 0
        (DeviceMsg.screenshotResponse none (some "denied") none)
        regState).1.deviceScreenshots =
      some { imgData := none, format := none, errMsg := some "denied", timestamp := 8 } ∧
    (handleDeviceMessage 8 0 (DeviceMsg.screenshotResponse none (some "denied") none)
        regState).1.connectedDevices = regState.connectedDevices := by
  have h1 := screenshot_response_updates regState 7 0 "d" (freshSession 0 1 "d" sampleInfo)
    "IMG" "denied" none (by decide) (by decide) (by decide) (by decide)
  have h2 := screenshot_response_updates regState 8 0 "d" (freshSession 0 1 "d" sampleInfo)
    "IMG" "denied" none (by decide) (by decide) (by decide) (by decide)
  exact ⟨h1.1.1.trans (by decide), h2.2.1, h2.2.2⟩

/-- C10: after deviceId re-registers on a new connection `w2`, the close of
the old superseded connection `w1` changes neither `connectedDevices` nor
`deviceHistory`: the device stays online and bound to `w2`, because the
offline transition fires only for the connection currently bound to a live
session. -/
theorem superseded_close_noop (s : HubState) (deviceId : String) (info : DeviceInfo)
    (w1 w2 now1 now2 : Nat) (hw : w2 ≠ w1) (hid : deviceId ≠ "")
    (hnd : (s.connectedDevices.map Prod.fst).Nodup)
    (hb : ∀ p ∈ s.connectedDevices, p.2.wsId = w1 → p.1 = deviceId) :
    (handleClose now2 w1 (handleDeviceMessage now1 w2
        (DeviceMsg.register (some deviceId) info) s).1).connectedDevices =
      (handleDeviceMessage now1 w2
        (DeviceMsg.register (some deviceId) info) s).1.connectedDevices ∧
    (handleClose now2 w1 (handleDeviceMessage now1 w2
        (DeviceMsg.register (some deviceId) info) s).1).deviceHistory =
      (handleDeviceMessage now1 w2
        (DeviceMsg.register (some deviceId) info) s).1.deviceHistory ∧
    (mapGet deviceId (handleDeviceMessage now1 w2
        (DeviceMsg.register (some deviceId) info) s).1.connectedDevices).map
        (·.isOnline) = some true ∧
    (mapGet deviceId (handleDeviceMessage now1 w2
        (DeviceMsg.register (some deviceId) info) s).1.connectedDevices).map
        (·.wsId) = some w2 := by
  have hs : strTruthy (some deviceId) = some deviceId := by simp [strTruthy, hid]
  have hcd : (handleDeviceMessage now1 w2
      (DeviceMsg.register (some deviceId) info) s).1.connectedDevices =
      mapSet deviceId (freshSession w2 now1 deviceId info) s.connectedDevices := by
    simp [handleDeviceMessage, hs]
  have hnone : findByWs w1 (handleDeviceMessage now1 w2
      (DeviceMsg.register (some deviceId) info) s).1.connectedDevices = none := by
    rw [hcd]
    exact findByWs_mapSet_none hnd hb (by simp [freshSession, hw])
  refine ⟨?_, ?_, ?_, ?_⟩
  · rw [handleClose_connectedDevices, updateByWs_of_none hnone]
  · rw [handleClose_deviceHistory]; simp [hnone]
  · rw [hcd, mapGet_mapSet_self]; rfl
  · rw [hcd, mapGet_mapSet_self]; rfl

/-- Witness for C10: device `"d"` re-registers on connection 1, then the
old connection 0 closes; nothing about the device changes and it is still
online. -/
theorem superseded_close_noop_witness :
    (handleClose 4 0 (handleDeviceMessage 3 1
        (DeviceMsg.register (some "d") sampleInfo) regState).1).connectedDevices =
      (handleDeviceMessage 3 1
        (DeviceMsg.register (some "d") sampleInfo) regState).1.connectedDevices ∧
    (handleClose 4 0 (handleDeviceMessage 3 1
        (DeviceMsg.register (some "d") sampleInfo) regState).1).deviceHistory =
      (handleDeviceMessage 3 1
        (DeviceMsg.register (some "d") sampleInfo) regState).1.deviceHistory ∧
    (mapGet "d" (handleDeviceMessage 3 1
        (DeviceMsg.register (some "d") sampleInfo) regState).1.connectedDevices).map
        (·.isOnline) = some true := by
  have h := superseded_close_noop regState "d" sampleInfo 0 1 3 4
    (by decide) (by decide) (by decide) (by decide)
  exact ⟨h.1, h.2.1, h.2.2.1⟩

end RemHub
